import Mathlib

/-!
Shallow embedding of the konvoy / Kuma control-plane fragments under review:
the HTTP resource webservice of
`src/components/konvoy-control-plane/pkg/api-server/resource_ws.go`
(together with the Resource Store contract it drives), and the network
RBAC listener configurer of the `listeners` package appended to the same
source file.  Go structures become Lean structures, Go maps become
association lists with Go's replace-on-insert semantics, and the handlers
become pure functions that additionally return the list of HTTP response
events written and the list of store operations attempted.
-/

namespace Kuma

/-! ### JSON values, as seen by `encoding/json` and `jsonpb` -/

/-- A parsed JSON document.  Bodies handed to the webservice are modelled as
already syntactically valid JSON values. -/
inductive JsonValue where
  | str (s : String)
  | num (n : Int)
  | boolean (b : Bool)
  | null
  | arr (elems : List JsonValue)
  | obj (fields : List (String × JsonValue))

def isJsonString : JsonValue → Bool
  | .str _ => true
  | _ => false

def isStringOrNull : JsonValue → Bool
  | .str _ => true
  | .null => true
  | _ => false

/-- Behaviour of Go `json.Unmarshal(jsonBytes, &map[string]string{})` used at
resource_ws.go:71-74 on a syntactically valid document: it succeeds on a JSON
object all of whose top-level values are strings — or nulls, since the
`encoding/json` contract decodes a JSON null into a non-pointer Go type as a
no-op producing no error — and on a top-level null (which leaves the nil map);
every other shape yields an `UnmarshalTypeError`. -/
def goStringMapDecodeOk : JsonValue → Bool
  | .null => true
  | .obj fields => fields.all (fun kv => isStringOrNull kv.2)
  | _ => false

/-- Reading key `k` of the decoded `map[string]string`: later duplicate keys
overwrite earlier ones, a null value leaves the zero value `""`, and an absent
key reads as the zero value `""` (Go map indexing). -/
def goStringMapGet (body : JsonValue) (k : String) : String :=
  match body with
  | .obj fields =>
      fields.foldl
        (fun acc kv =>
          if kv.1 = k then (match kv.2 with | .str s => s | _ => "") else acc) ""
  | _ => ""

/-! ### Resource specs and the request envelope (resource_ws.go) -/

/-- A protobuf resource spec value, abstracted: `tag` is the dynamic message
type (the shape declared by the owning resource type) and `payload` its
content. -/
structure ResourceSpec where
  tag : String
  payload : String
deriving DecidableEq

/-- `ResourceReqResp` (resource_ws.go:31-36): the envelope fields `type`,
`name`, `mesh` plus the embedded spec. -/
structure ResourceReqResp where
  type_ : String
  name : String
  mesh : String
  spec : ResourceSpec
deriving DecidableEq

/-- The struct as initialised at resource_ws.go:180-182: zero-valued envelope
fields and the factory's empty spec. -/
def initialReqResp (dflt : ResourceSpec) : ResourceReqResp :=
  { type_ := "", name := "", mesh := "", spec := dflt }

/-- `ResourceReqResp.UnmarshalJSON` (resource_ws.go:66-79).  First the body is
decoded into the spec by the jsonpb unmarshaler (`specDec`, the decoder of the
concrete spec message with unknown fields allowed), then the whole body is
decoded a second time into a `map[string]string` to pick out the envelope
fields.  The result is the final struct state and a success flag; on failure
the envelope fields keep their zero values because they are assigned only
after both decodes succeeded. -/
def unmarshalResourceReqResp (specDec : JsonValue → Option ResourceSpec)
    (r0 : ResourceReqResp) (body : JsonValue) : ResourceReqResp × Bool :=
  match specDec body with
  | none => (r0, false)
  | some s =>
      let r1 := { r0 with spec := s }
      if goStringMapDecodeOk body then
        ({ r1 with
            name := goStringMapGet body "name",
            type_ := goStringMapGet body "type",
            mesh := goStringMapGet body "mesh" }, true)
      else (r1, false)

/-! ### The Resource Store -/

/-- Go const `namespace = "default"` (resource_ws.go:16); every handler passes
this constant where the store expects the scope key. -/
def namespaceConst : String := "default"

inductive StoreErr where
  | notFound
  | alreadyExists
  | conflict
  | backendUnavailable
deriving DecidableEq

structure StoredResource where
  rtype : String
  mesh : String
  name : String
  spec : ResourceSpec
  version : Nat
deriving DecidableEq

/-- Modelled from the spec: §4.2 Resource Store — the store abstraction lives
in `pkg/core/resources/store`, which is not part of src/.  Resources are keyed
by `(type, mesh, name)`; `broken` injects the spec's `BackendUnavailable`
failure mode so that the handlers' non-NotFound error paths are reachable. -/
structure StoreState where
  resources : List StoredResource
  broken : Bool
deriving DecidableEq

def matchesKey (rtype mesh name : String) (r : StoredResource) : Bool :=
  r.rtype = rtype && r.mesh = mesh && r.name = name

/-- Modelled from the spec: §4.2 `Get` — fails with `NotFound` if absent. -/
def storeGet (st : StoreState) (rtype mesh name : String) :
    Except StoreErr StoredResource :=
  if st.broken then .error .backendUnavailable
  else
    match st.resources.find? (matchesKey rtype mesh name) with
    | some r => .ok r
    | none => .error .notFound

/-- Modelled from the spec: §4.2 `List` — fills the list with all resources of
the type in the given mesh scope. -/
def storeList (st : StoreState) (rtype mesh : String) :
    Except StoreErr (List StoredResource) :=
  if st.broken then .error .backendUnavailable
  else .ok (st.resources.filter (fun r => r.rtype = rtype && r.mesh = mesh))

/-- Modelled from the spec: §4.2 `Create` — fails with `AlreadyExists` on a
present key, otherwise stores the resource at version 1. -/
def storeCreate (st : StoreState) (rtype mesh name : String)
    (spec : ResourceSpec) : Except StoreErr StoreState :=
  if st.broken then .error .backendUnavailable
  else if (st.resources.find? (matchesKey rtype mesh name)).isSome then
    .error .alreadyExists
  else .ok { st with resources := st.resources ++ [⟨rtype, mesh, name, spec, 1⟩] }

/-- Modelled from the spec: §4.2 `Update` — optimistic concurrency: the
carried version must equal the stored one, else `Conflict`. -/
def storeUpdate (st : StoreState) (r : StoredResource) :
    Except StoreErr StoreState :=
  if st.broken then .error .backendUnavailable
  else
    match st.resources.find? (matchesKey r.rtype r.mesh r.name) with
    | none => .error .notFound
    | some cur =>
        if cur.version = r.version then
          .ok { st with resources := st.resources.map (fun x =>
            if matchesKey r.rtype r.mesh r.name x then
              { r with version := r.version + 1 }
            else x) }
        else .error .conflict

/-- Modelled from the spec: §4.2 `Delete` — fails with `NotFound` if absent. -/
def storeDelete (st : StoreState) (rtype mesh name : String) :
    Except StoreErr StoreState :=
  if st.broken then .error .backendUnavailable
  else if (st.resources.find? (matchesKey rtype mesh name)).isSome then
    .ok { st with resources :=
      st.resources.filter (fun r => !(matchesKey rtype mesh name r)) }
  else .error .notFound

/-- Modelled from the spec: §4.1 — `setSpec` must reject a spec whose dynamic
shape does not match the resource's declared type, failing with a
`TypeMismatch` error and leaving the resource unchanged.  Returns the
resulting spec field and a success flag; the call sites in src discard the
flag (`_ = res.SetSpec(spec)`, resource_ws.go:225 and 235). -/
def SetSpec (declaredType : String) (current incoming : ResourceSpec) :
    ResourceSpec × Bool :=
  if incoming.tag = declaredType then (incoming, true) else (current, false)

/-! ### The HTTP handlers (resource_ws.go) -/

/-- One write on the `restful.Response`: `writeError`, `WriteHeader` or a JSON
body. -/
inductive RespEvent where
  | error (status : Nat) (msg : String)
  | header (status : Nat)
  | jsonBody (body : ResourceReqResp)
  | jsonList (items : List ResourceReqResp)
deriving DecidableEq

/-- A store operation attempted by a handler, in order. -/
inductive StoreOp where
  | get (mesh name : String)
  | list (mesh : String)
  | create (mesh name : String)
  | update
  | delete (mesh name : String)
deriving DecidableEq

structure HandlerResult where
  state : StoreState
  responses : List RespEvent
  ops : List StoreOp
deriving DecidableEq

/-- `findResource` (resource_ws.go:119-145).  A store error whose message
equals the `ErrorResourceNotFound` message yields 404, any other store error
yields 500; on success the resource is echoed with the type of the factory,
the name and mesh taken from the URL. -/
def findResource (rtype : String) (st : StoreState) (urlName urlMesh : String) :
    List RespEvent :=
  match storeGet st rtype namespaceConst urlName with
  | .error .notFound => [.error 404 ""]
  | .error _ => [.error 500 "Could not retrieve a resource"]
  | .ok res => [.jsonBody { type_ := rtype, name := urlName, mesh := urlMesh, spec := res.spec }]

/-- `listResources` (resource_ws.go:151-175).  The store is queried with the
constant `namespace`, not the mesh from the URL; each returned item is
labelled with the mesh name taken from the request path. -/
def listResources (rtype : String) (st : StoreState) (urlMesh : String) :
    List RespEvent :=
  match storeList st rtype namespaceConst with
  | .error _ => [.error 500 "Could not list a resource"]
  | .ok items =>
      [.jsonList (items.map (fun it =>
        { type_ := it.rtype, name := it.name, mesh := urlMesh, spec := it.spec }))]

/-- `validateResourceRequest` (resource_ws.go:208-221). -/
def validateResourceRequest (rtype urlName urlMesh : String)
    (rr : ResourceReqResp) : Option String :=
  if urlName ≠ rr.name then some "Name from the URL has to be the same as in body"
  else if rtype ≠ rr.type_ then some "Type from the URL has to be the same as in body"
  else if urlMesh ≠ rr.mesh then some "Mesh from the URL has to be the same as in body"
  else none

/-- `createResource` (resource_ws.go:223-232): the `SetSpec` error is
discarded and the store `Create` runs unconditionally. -/
def createResource (rtype : String) (dflt : ResourceSpec) (st : StoreState)
    (name : String) (spec : ResourceSpec) :
    StoreState × List RespEvent × List StoreOp :=
  let resSpec := (SetSpec rtype dflt spec).1
  match storeCreate st rtype namespaceConst name resSpec with
  | .error _ => (st, [.error 500 "Could not create a resource"], [.create namespaceConst name])
  | .ok st2 => (st2, [.header 201], [.create namespaceConst name])

/-- `updateResource` (resource_ws.go:234-242): the `SetSpec` error is
discarded and the store `Update` runs unconditionally on the fetched
resource. -/
def updateResource (rtype : String) (st : StoreState) (res : StoredResource)
    (spec : ResourceSpec) : StoreState × List RespEvent × List StoreOp :=
  let newSpec := (SetSpec rtype res.spec spec).1
  match storeUpdate st { res with spec := newSpec } with
  | .error _ => (st, [.error 500 "Could not update a resource"], [.update])
  | .ok st2 => (st2, [.header 200], [.update])

/-- `createOrUpdateResource` (resource_ws.go:177-206).  A failing
`ReadEntity` writes a 400 error but does not return; the handler then
validates the (possibly zero-valued) envelope against the URL and, if that
passes, performs `Get` followed by `Create` (on the NotFound message) or
`Update`.  Any other `Get` error yields 500. -/
def createOrUpdateResource (rtype : String) (dflt : ResourceSpec)
    (specDec : JsonValue → Option ResourceSpec) (st : StoreState)
    (urlName urlMesh : String) (body : JsonValue) : HandlerResult :=
  let decoded := unmarshalResourceReqResp specDec (initialReqResp dflt) body
  let readErrs : List RespEvent :=
    if decoded.2 then [] else [.error 400 "Could not process the resource"]
  match validateResourceRequest rtype urlName urlMesh decoded.1 with
  | some msg => { state := st, responses := readErrs ++ [.error 400 msg], ops := [] }
  | none =>
      match storeGet st rtype namespaceConst urlName with
      | .error .notFound =>
          let r := createResource rtype dflt st urlName decoded.1.spec
          { state := r.1, responses := readErrs ++ r.2.1,
            ops := .get namespaceConst urlName :: r.2.2 }
      | .error _ =>
          { state := st, responses := readErrs ++ [.error 500 "Could not create a resource"],
            ops := [.get namespaceConst urlName] }
      | .ok res =>
          let r := updateResource rtype st res decoded.1.spec
          { state := r.1, responses := readErrs ++ r.2.1,
            ops := .get namespaceConst urlName :: r.2.2 }

/-- `deleteResource` (resource_ws.go:244-254): every store error — the
NotFound case included — is answered with status 500; success writes nothing
explicitly (the container's implicit 200). -/
def deleteResource (rtype : String) (st : StoreState) (urlName : String) :
    StoreState × List RespEvent :=
  match storeDelete st rtype namespaceConst urlName with
  | .error _ => (st, [.error 500 "Could not delete a resource"])
  | .ok st2 => (st2, [])

/-! ### Traffic permissions and the network RBAC configurer (listeners package) -/

/-- Modelled from the spec: `v1alpha1.MatchAllTag`, the wildcard tag value
`*` (spec §3: "wildcard `*` meaning match all values of that key"); the
constant lives in the `api` module, outside src/. -/
def MatchAllTag : String := "*"

/-- A source selector of a traffic permission: the Go `Selector` carries a
`Match map[string]string`. -/
structure Selector where
  matchTags : List (String × String)
deriving DecidableEq

/-- First-match lookup in a protobuf `map<string,string>` (keys are unique);
an absent key reads as the Go zero value `""`. -/
def tagValue (tags : List (String × String)) (k : String) : String :=
  match tags with
  | [] => ""
  | (k2, v) :: rest => if k2 = k then v else tagValue rest k

structure ResourceMeta where
  name : String
  mesh : String
deriving DecidableEq

/-- The `TrafficPermission` spec: `sources` drive the generated principals;
`destinations` are carried but never read by this configurer. -/
structure TrafficPermissionSpec where
  sources : List Selector
  destinations : List Selector
deriving DecidableEq

structure TrafficPermissionResource where
  meta : ResourceMeta
  spec : TrafficPermissionSpec
deriving DecidableEq

structure TrafficPermissionResourceList where
  items : List TrafficPermissionResource
deriving DecidableEq

/-- An envoy RBAC principal identifier: either match-any or an authenticated
principal name matched exactly (`StringMatcher_Exact`). -/
inductive PrincipalIdentifier where
  | any
  | authenticated (principalName : String)
deriving DecidableEq

structure RbacPrincipal where
  identifier : PrincipalIdentifier
deriving DecidableEq

/-- The only permission rule shape the code emits: `Permission_Any`. -/
inductive PermissionRuleKind where
  | any
deriving DecidableEq

structure RbacPermission where
  rule : PermissionRuleKind
deriving DecidableEq

structure RbacPolicy where
  permissions : List RbacPermission
  principals : List RbacPrincipal
deriving DecidableEq

inductive RbacAction where
  | allow
  | deny
deriving DecidableEq

/-- Go map assignment `m[k] = v`: replace the binding if the key is present,
otherwise add it. -/
def mapInsert {β : Type} (m : List (String × β)) (k : String) (v : β) :
    List (String × β) :=
  match m with
  | [] => [(k, v)]
  | (k2, v2) :: rest =>
      if k2 = k then (k, v) :: rest else (k2, v2) :: mapInsert rest k v

/-- Go map read `m[k]` returning an option. -/
def mapLookup {β : Type} (m : List (String × β)) (k : String) : Option β :=
  match m with
  | [] => none
  | (k2, v) :: rest => if k2 = k then some v else mapLookup rest k

/-- The `rbac_config.RBAC` rules message: an action and the named-policy map,
represented as its key-unique entry list in insertion order. -/
structure RbacRules where
  action : RbacAction
  policies : List (String × RbacPolicy)
deriving DecidableEq

/-- The network `rbac.RBAC` filter configuration: the rules plus the metric
stat prefix. -/
structure NetworkRbacConfig where
  rules : RbacRules
  statPrefix : String
deriving DecidableEq

/-- Modelled from the spec: `util_xds.SanitizeMetric` (outside src/) —
§4.5.6: "sanitizing the listener's name (replacing protocol-unsafe characters
such as `:`)"; every character that is not an ASCII letter, digit or
underscore is replaced with an underscore. -/
def SanitizeMetric (s : String) : String :=
  String.mk (s.data.map (fun c => if c.isAlphanum || c = '_' then c else '_'))

/-- `createPolicy` (listeners source, resource_ws.go:383-419): one principal
per source selector — match-any for the wildcard service tag, otherwise an
authenticated principal exact-matching `spiffe://<mesh>/<service>` — and a
single match-any permission rule. -/
def createPolicy (permission : TrafficPermissionResource) : RbacPolicy :=
  let principals := permission.spec.sources.map (fun source =>
    let service := tagValue source.matchTags "service"
    if service = MatchAllTag then
      { identifier := PrincipalIdentifier.any }
    else
      { identifier := PrincipalIdentifier.authenticated
          ("spiffe://" ++ permission.meta.mesh ++ "/" ++ service) })
  { permissions := [{ rule := PermissionRuleKind.any }], principals := principals }

/-- `createRbacRule` (listeners source, resource_ws.go:367-381): the policies
map keyed by each permission's resource name, action ALLOW, and the stat
prefix `SanitizeMetric(listenerName) + "."`. -/
def createRbacRule (listenerName : String)
    (permissions : TrafficPermissionResourceList) : NetworkRbacConfig :=
  let policies := permissions.items.foldl
    (fun acc permission => mapInsert acc permission.meta.name (createPolicy permission)) []
  { rules := { action := RbacAction.allow, policies := policies },
    statPrefix := SanitizeMetric listenerName ++ "." }

/-- `envoy_wellknown.RoleBasedAccessControl`, the canonical network RBAC
filter name (third-party go-control-plane constant). -/
def RoleBasedAccessControl : String := "envoy.filters.network.rbac"

/-- A listener filter's config: the RBAC filters built here carry their rule
(the `Any`-wrapped marshalled message is represented by the message value
itself; byte serialization is modelled separately by `marshalRbac`), other
pre-existing filters carry an opaque tag. -/
inductive FilterConfigType where
  | typedRbac (config : NetworkRbacConfig)
  | other (tag : String)
deriving DecidableEq

structure EnvoyFilter where
  name : String
  configType : FilterConfigType
deriving DecidableEq

structure FilterChain where
  filters : List EnvoyFilter
deriving DecidableEq

structure Listener where
  name : String
  filterChains : List FilterChain
deriving DecidableEq

/-- `createRbacFilter` (listeners source, resource_ws.go:353-365).  The
`ptypes.MarshalAny` step cannot fail on this message, so the filter is built
unconditionally. -/
def createRbacFilter (listenerName : String)
    (permissions : TrafficPermissionResourceList) : EnvoyFilter :=
  { name := RoleBasedAccessControl,
    configType := FilterConfigType.typedRbac (createRbacRule listenerName permissions) }

/-- `NetworkRBACConfigurer.Configure` (listeners source, resource_ws.go:
339-351): for every filter chain of the listener, the freshly built RBAC
filter is prepended so that it is the first filter of the chain. -/
def networkRbacConfigure (permissions : TrafficPermissionResourceList)
    (l : Listener) : Listener :=
  { l with filterChains := l.filterChains.map (fun fc =>
      { fc with filters := createRbacFilter l.name permissions :: fc.filters }) }

/-! ### Enforcement semantics and wire serialization (modelled) -/

/-- Modelled from the spec: §4.5 enforcement — a principal matcher matches the
downstream identity either always or on the exact identity string. -/
def principalMatches (principal : RbacPrincipal) (downstreamId : String) : Bool :=
  match principal.identifier with
  | .any => true
  | .authenticated s => s = downstreamId

/-- Modelled from the spec: §4.5 enforcement — a policy applies when some
permission rule matches (any rule matches every destination) and some
principal matches the downstream identity. -/
def policyMatches (policy : RbacPolicy) (downstreamId : String) : Bool :=
  policy.permissions.any (fun p => match p.rule with | .any => true) &&
    policy.principals.any (fun pr => principalMatches pr downstreamId)

/-- Modelled from the spec: §4.5 default-deny enforcement — with action ALLOW,
traffic is allowed exactly when some policy matches; an empty policy set
denies everything. -/
def rbacAllows (rules : RbacRules) (downstreamId : String) : Bool :=
  match rules.action with
  | .allow => rules.policies.any (fun kv => policyMatches kv.2 downstreamId)
  | .deny => !(rules.policies.any (fun kv => policyMatches kv.2 downstreamId))

/-- The observable wire content of a marshalled `rbac.RBAC` message: scalar
fields plus the policies map entries in their emission order. -/
structure MarshalledRbac where
  action : RbacAction
  policyEntries : List (String × RbacPolicy)
  statPrefix : String
deriving DecidableEq

/-- Modelled from the spec: §4.4 — the byte serialization performed by
`ptypes.MarshalAny` inside `createRbacFilter`.  A protobuf map field is
emitted one entry at a time in the order the Go runtime iterates the map,
an order the language leaves unspecified; the order is therefore an explicit
parameter. -/
def marshalRbac (r : NetworkRbacConfig) (order : List String) : MarshalledRbac :=
  { action := r.rules.action,
    policyEntries := order.filterMap (fun k =>
      (mapLookup r.rules.policies k).map (fun v => (k, v))),
    statPrefix := r.statPrefix }

/-- An iteration order the Go runtime may produce for the policies map: any
permutation of its keys. -/
def validIterationOrder (r : NetworkRbacConfig) (order : List String) : Prop :=
  order.Perm (r.rules.policies.map Prod.fst)

/-! ### Concrete instances used by witnesses and counterexamples -/

def tpSpec : ResourceSpec := ⟨"TrafficPermission", "allow-all"⟩

def tpDflt : ResourceSpec := ⟨"TrafficPermission", ""⟩

/-- A jsonpb decoder for the concrete spec message that accepts every body. -/
def tpDec : JsonValue → Option ResourceSpec := fun _ => some tpSpec

def emptyStore : StoreState := ⟨[], false⟩

def brokenStore : StoreState := ⟨[], true⟩

/-- A PUT body addressed to mesh `B`. -/
def bodyMeshB : JsonValue :=
  .obj [("name", .str "web"), ("type", .str "TrafficPermission"), ("mesh", .str "B")]

/-- The store state after `PUT /meshes/B/traffic-permissions/web` succeeded on
an empty store. -/
def stAfterCreateViaB : StoreState :=
  (createOrUpdateResource "TrafficPermission" tpDflt tpDec emptyStore "web" "B" bodyMeshB).state

def noPerms : TrafficPermissionResourceList := ⟨[]⟩

def chainF1F2 : FilterChain :=
  ⟨[⟨"F1", FilterConfigType.other "f1"⟩, ⟨"F2", FilterConfigType.other "f2"⟩]⟩

def inboundListener : Listener := ⟨"inbound:127.0.0.1:21011", [chainF1F2]⟩

/-- Permission `allow-web` of mesh `m1` with an exact source and a wildcard
source. -/
def permAllowWeb : TrafficPermissionResource :=
  ⟨⟨"allow-web", "m1"⟩, ⟨[⟨[("service", "web")]⟩, ⟨[("service", "*")]⟩], []⟩⟩

def permNamedA : TrafficPermissionResource := ⟨⟨"a", "m"⟩, ⟨[], []⟩⟩

def permNamedB : TrafficPermissionResource := ⟨⟨"b", "m"⟩, ⟨[], []⟩⟩

/-- The rule built from two permissions, so that the policies map has two
entries. -/
def twoPermRule : NetworkRbacConfig := createRbacRule "l" ⟨[permNamedA, permNamedB]⟩

/-- A jsonpb decoder of a spec message documenting a mismatching dynamic
shape (used for C10's witness only through the spec value). -/
def failDec : JsonValue → Option ResourceSpec := fun _ => some ⟨"", ""⟩

def nullDec : JsonValue → Option ResourceSpec := fun _ => some ⟨"t", "p"⟩

/-- A body whose `spec` field is JSON null: not a JSON string, yet accepted by
`json.Unmarshal` into `map[string]string`. -/
def bodyWithNull : JsonValue := .obj [("name", .str "x"), ("spec", .null)]

/-! ### Helper lemmas on the Go map model -/

theorem mapLookup_mapInsert_self {β : Type} (m : List (String × β)) (k : String)
    (v : β) : mapLookup (mapInsert m k v) k = some v := by
  induction m with
  | nil => simp [mapInsert, mapLookup]
  | cons kv rest ih =>
      obtain ⟨k2, v2⟩ := kv
      by_cases hk : k2 = k
      · simp [mapInsert, hk, mapLookup]
      · simp [mapInsert, hk, mapLookup, ih]

theorem mapLookup_mapInsert_ne {β : Type} (m : List (String × β)) (k k3 : String)
    (v : β) (hne : k3 ≠ k) : mapLookup (mapInsert m k v) k3 = mapLookup m k3 := by
  have hkn : ¬ k = k3 := fun h => hne h.symm
  induction m with
  | nil => simp [mapInsert, mapLookup, hkn]
  | cons kv rest ih =>
      obtain ⟨k2, v2⟩ := kv
      by_cases hk : k2 = k
      · subst hk
        simp [mapInsert, mapLookup, hkn]
      · simp [mapInsert, hk, mapLookup, ih]

theorem mapLookup_foldl_insert_untouched (items : List TrafficPermissionResource)
    (acc : List (String × RbacPolicy)) (k : String)
    (h : ∀ q ∈ items, q.meta.name ≠ k) :
    mapLookup (items.foldl
      (fun m p => mapInsert m p.meta.name (createPolicy p)) acc) k = mapLookup acc k := by
  induction items generalizing acc with
  | nil => rfl
  | cons x xs ih =>
      simp only [List.foldl_cons]
      rw [ih _ (fun q hq => h q (List.mem_cons_of_mem _ hq))]
      exact mapLookup_mapInsert_ne _ _ _ _ (h x (List.mem_cons_self _ _)).symm

theorem mapLookup_foldl_insert_mem (items : List TrafficPermissionResource)
    (acc : List (String × RbacPolicy)) (p : TrafficPermissionResource)
    (hmem : p ∈ items) (hnodup : (items.map (fun q => q.meta.name)).Nodup) :
    mapLookup (items.foldl
      (fun m q => mapInsert m q.meta.name (createPolicy q)) acc) p.meta.name =
      some (createPolicy p) := by
  induction items generalizing acc with
  | nil => cases hmem
  | cons x xs ih =>
      simp only [List.map_cons, List.nodup_cons] at hnodup
      cases hmem with
      | head =>
          simp only [List.foldl_cons]
          have hne : ∀ q ∈ xs, q.meta.name ≠ p.meta.name := by
            intro q hq hcontra
            exact hnodup.1 (hcontra ▸ List.mem_map_of_mem _ hq)
          rw [mapLookup_foldl_insert_untouched xs _ _ hne]
          exact mapLookup_mapInsert_self _ _ _
      | tail _ hm =>
          simp only [List.foldl_cons]
          exact ih _ hm hnodup.2

/-! ### Helper lemmas on the handlers -/

theorem createResource_ops (rtype : String) (dflt : ResourceSpec) (st : StoreState)
    (name : String) (spec : ResourceSpec) :
    (createResource rtype dflt st name spec).2.2 = [StoreOp.create namespaceConst name] := by
  simp only [createResource]
  cases storeCreate st rtype namespaceConst name (SetSpec rtype dflt spec).1 <;> rfl

theorem updateResource_ops (rtype : String) (st : StoreState) (res : StoredResource)
    (spec : ResourceSpec) : (updateResource rtype st res spec).2.2 = [StoreOp.update] := by
  simp only [updateResource]
  cases storeUpdate st { res with spec := (SetSpec rtype res.spec spec).1 } <;> rfl

theorem createResource_responses (rtype : String) (dflt : ResourceSpec) (st : StoreState)
    (name : String) (spec : ResourceSpec) :
    (createResource rtype dflt st name spec).2.1 = [RespEvent.header 201] ∨
      (createResource rtype dflt st name spec).2.1 =
        [RespEvent.error 500 "Could not create a resource"] := by
  simp only [createResource]
  cases storeCreate st rtype namespaceConst name (SetSpec rtype dflt spec).1 with
  | error e => exact Or.inr rfl
  | ok st2 => exact Or.inl rfl

theorem updateResource_responses (rtype : String) (st : StoreState) (res : StoredResource)
    (spec : ResourceSpec) :
    (updateResource rtype st res spec).2.1 = [RespEvent.header 200] ∨
      (updateResource rtype st res spec).2.1 =
        [RespEvent.error 500 "Could not update a resource"] := by
  simp only [updateResource]
  cases storeUpdate st { res with spec := (SetSpec rtype res.spec spec).1 } with
  | error e => exact Or.inr rfl
  | ok st2 => exact Or.inl rfl

theorem goStringMapGet_foldl_no_key (k : String) (fields : List (String × JsonValue))
    (acc : String) (h : ∀ kv ∈ fields, kv.1 ≠ k) :
    fields.foldl
      (fun acc2 kv =>
        if kv.1 = k then (match kv.2 with | .str s => s | _ => "") else acc2) acc = acc := by
  induction fields generalizing acc with
  | nil => rfl
  | cons kv rest ih =>
      simp only [List.foldl_cons]
      rw [if_neg (h kv (List.mem_cons_self _ _))]
      exact ih _ (fun q hq => h q (List.mem_cons_of_mem _ hq))

/-! ### The claims -/

/-- C1: the claim says a List request for mesh `A` never returns a resource
created in mesh `B` because the handler queries the store scoped to the mesh
from the request path.  The code instead passes the constant `namespace =
"default"` to every store call: after `PUT /meshes/B/traffic-permissions/web`
succeeds (201) on an empty store, `GET /meshes/A/traffic-permissions` returns
that very resource, relabelled with mesh `A`. -/
theorem C1_list_ignores_mesh :
    (createOrUpdateResource "TrafficPermission" tpDflt tpDec emptyStore
        "web" "B" bodyMeshB).responses = [RespEvent.header 201] ∧
    listResources "TrafficPermission" stAfterCreateViaB "A" =
      [RespEvent.jsonList [⟨"TrafficPermission", "web", "A", tpSpec⟩]] := by
  decide

/-- C2: running the access-control configurer on a listener prepends the
generated RBAC filter to every filter chain: chain `i` becomes the RBAC filter
followed by the original filters in their original order, and the prepended
filter carries the well-known RBAC filter name. -/
theorem C2_rbac_filter_prepended (p : TrafficPermissionResourceList) (l : Listener)
    (i : Nat) (h : i < l.filterChains.length) :
    (networkRbacConfigure p l).filterChains.length = l.filterChains.length ∧
    (createRbacFilter l.name p).name = RoleBasedAccessControl ∧
    ∃ h2 : i < (networkRbacConfigure p l).filterChains.length,
      ((networkRbacConfigure p l).filterChains.get ⟨i, h2⟩).filters =
        createRbacFilter l.name p :: (l.filterChains.get ⟨i, h⟩).filters := by
  refine ⟨by simp [networkRbacConfigure], rfl, ?_⟩
  have h2 : i < (networkRbacConfigure p l).filterChains.length := by
    simpa [networkRbacConfigure] using h
  refine ⟨h2, ?_⟩
  simp [networkRbacConfigure, List.get_eq_getElem, List.getElem_map]

/-- Witness for C2 at a listener whose single chain holds `[F1, F2]`. -/
theorem C2_rbac_filter_prepended_witness :
    (networkRbacConfigure noPerms inboundListener).filterChains.length =
      inboundListener.filterChains.length ∧
    (createRbacFilter inboundListener.name noPerms).name = RoleBasedAccessControl ∧
    ∃ h2 : 0 < (networkRbacConfigure noPerms inboundListener).filterChains.length,
      ((networkRbacConfigure noPerms inboundListener).filterChains.get ⟨0, h2⟩).filters =
        createRbacFilter inboundListener.name noPerms ::
          (inboundListener.filterChains.get ⟨0, by decide⟩).filters :=
  C2_rbac_filter_prepended noPerms inboundListener 0 (by decide)

/-- C3: each permission's generated policy has one principal per source
selector — match-any when the `service` tag is the wildcard, otherwise an
exact match on `spiffe://<mesh>/<service>` with the permission's owning mesh —
and exactly one match-any permission rule; inside the rule the policy is keyed
by the permission's resource name. -/
theorem C3_policy_per_source (perm : TrafficPermissionResource)
    (perms : TrafficPermissionResourceList) (ln : String)
    (hmem : perm ∈ perms.items)
    (hnodup : (perms.items.map (fun q => q.meta.name)).Nodup) :
    (createPolicy perm).permissions = [{ rule := PermissionRuleKind.any }] ∧
    (createPolicy perm).principals = perm.spec.sources.map (fun source =>
      if tagValue source.matchTags "service" = MatchAllTag then
        { identifier := PrincipalIdentifier.any }
      else
        { identifier := PrincipalIdentifier.authenticated
            ("spiffe://" ++ perm.meta.mesh ++ "/" ++ tagValue source.matchTags "service") }) ∧
    mapLookup (createRbacRule ln perms).rules.policies perm.meta.name =
      some (createPolicy perm) := by
  refine ⟨rfl, rfl, ?_⟩
  exact mapLookup_foldl_insert_mem perms.items [] perm hmem hnodup

/-- Witness for C3 at the permission `allow-web` of mesh `m1` with one exact
and one wildcard source. -/
theorem C3_policy_per_source_witness :
    (createPolicy permAllowWeb).permissions = [{ rule := PermissionRuleKind.any }] ∧
    (createPolicy permAllowWeb).principals = permAllowWeb.spec.sources.map (fun source =>
      if tagValue source.matchTags "service" = MatchAllTag then
        { identifier := PrincipalIdentifier.any }
      else
        { identifier := PrincipalIdentifier.authenticated
            ("spiffe://" ++ permAllowWeb.meta.mesh ++ "/" ++
              tagValue source.matchTags "service") }) ∧
    mapLookup (createRbacRule "l" ⟨[permAllowWeb]⟩).rules.policies
        permAllowWeb.meta.name = some (createPolicy permAllowWeb) :=
  C3_policy_per_source permAllowWeb ⟨[permAllowWeb]⟩ "l"
    (List.mem_singleton.mpr rfl) (by decide)

/-- C4: the claim requires byte-for-byte identical output across runs on
equal inputs.  The configurer marshals the policies Go map with
`ptypes.MarshalAny`, which emits map entries in the runtime's unspecified
iteration order: for the rule built from two permissions `a` and `b`, the two
iteration orders `[a, b]` and `[b, a]` are both permutations of the map's
keys yet serialize to different outputs, so the code does not guarantee the
claimed determinism. -/
theorem C4_marshal_not_deterministic :
    validIterationOrder twoPermRule ["a", "b"] ∧
    validIterationOrder twoPermRule ["b", "a"] ∧
    marshalRbac twoPermRule ["a", "b"] ≠ marshalRbac twoPermRule ["b", "a"] := by
  refine ⟨?_, ?_, by decide⟩
  · show List.Perm ["a", "b"] ["a", "b"]
    exact List.Perm.refl _
  · show List.Perm ["b", "a"] ["a", "b"]
    exact List.Perm.swap "a" "b" []

/-- C5 counterexample: for the listener `inbound:127.0.0.1:21011` the stat
prefix generated by `createRbacRule` is not the claimed
`inbound_127_0_0_1_21011rbac.`. -/
theorem C5_stat_prefix_claim_false :
    (createRbacRule "inbound:127.0.0.1:21011" noPerms).statPrefix ≠
      "inbound_127_0_0_1_21011rbac." := by decide

/-- C5 amended: the stat prefix is the sanitized listener name followed by a
trailing dot separator, `inbound_127_0_0_1_21011.`; the `rbac` metric segment
is appended by the enforcement layer, not by this code. -/
theorem C5_stat_prefix (perms : TrafficPermissionResourceList) :
    (createRbacRule "inbound:127.0.0.1:21011" perms).statPrefix =
      "inbound_127_0_0_1_21011." := rfl

/-- C6 counterexample: deleting an absent resource is answered with 500, not
with the claimed 404. -/
theorem C6_delete_absent_responds_500 :
    (deleteResource "TrafficPermission" emptyStore "web").2 =
      [RespEvent.error 500 "Could not delete a resource"] ∧
    (deleteResource "TrafficPermission" emptyStore "web").2 ≠
      [RespEvent.error 404 ""] := by decide

/-- C6 amended: `findResource` answers 404 on the NotFound store error and
500 on every other store error, and `createOrUpdateResource` treats NotFound
from its `Get` as the create path (it performs the store `Create` instead of
answering 404 or 500); but `deleteResource` answers 500 for every store
error, the NotFound case included. -/
theorem C6_amended_status_codes (rtype urlName urlMesh : String) (st : StoreState) :
    (storeGet st rtype namespaceConst urlName = .error .notFound →
      findResource rtype st urlName urlMesh = [RespEvent.error 404 ""]) ∧
    (∀ e : StoreErr, e ≠ .notFound →
      storeGet st rtype namespaceConst urlName = .error e →
      findResource rtype st urlName urlMesh =
        [RespEvent.error 500 "Could not retrieve a resource"]) ∧
    (∀ (dflt : ResourceSpec) (specDec : JsonValue → Option ResourceSpec)
        (body : JsonValue),
      validateResourceRequest rtype urlName urlMesh
        (unmarshalResourceReqResp specDec (initialReqResp dflt) body).1 = none →
      storeGet st rtype namespaceConst urlName = .error .notFound →
      (createOrUpdateResource rtype dflt specDec st urlName urlMesh body).ops =
        [StoreOp.get namespaceConst urlName, StoreOp.create namespaceConst urlName]) ∧
    (∀ e : StoreErr, storeDelete st rtype namespaceConst urlName = .error e →
      (deleteResource rtype st urlName).2 =
        [RespEvent.error 500 "Could not delete a resource"]) := by
  refine ⟨?_, ?_, ?_, ?_⟩
  · intro h
    simp [findResource, h]
  · intro e hne h
    cases e with
    | notFound => exact absurd rfl hne
    | alreadyExists => simp [findResource, h]
    | conflict => simp [findResource, h]
    | backendUnavailable => simp [findResource, h]
  · intro dflt specDec body hval hget
    simp [createOrUpdateResource, hval, hget, createResource_ops]
  · intro e h
    simp [deleteResource, h]

/-- Witness for C6 amended: a missing resource yields 404 on GET, a broken
backend yields 500 on GET, a PUT of a missing resource runs `Get` then
`Create`, and a missing resource yields 500 on DELETE. -/
theorem C6_amended_status_codes_witness :
    findResource "t" emptyStore "x" "m" = [RespEvent.error 404 ""] ∧
    findResource "t" brokenStore "x" "m" =
      [RespEvent.error 500 "Could not retrieve a resource"] ∧
    (createOrUpdateResource "TrafficPermission" tpDflt tpDec emptyStore
        "web" "B" bodyMeshB).ops =
      [StoreOp.get namespaceConst "web", StoreOp.create namespaceConst "web"] ∧
    (deleteResource "t" emptyStore "x").2 =
      [RespEvent.error 500 "Could not delete a resource"] :=
  ⟨(C6_amended_status_codes "t" "x" "m" emptyStore).1 rfl,
   (C6_amended_status_codes "t" "x" "m" brokenStore).2.1 .backendUnavailable
     (by decide) rfl,
   (C6_amended_status_codes "TrafficPermission" "web" "B" emptyStore).2.2.1
     tpDflt tpDec bodyMeshB (by decide) rfl,
   (C6_amended_status_codes "t" "x" "m" emptyStore).2.2.2 .notFound rfl⟩

/-- C7: with an empty permission list the configurer still builds the filter:
the rule has zero policies and action ALLOW, the modelled default-deny
enforcement rejects every downstream identity, and the filter is prepended to
every chain of the listener — never omitted. -/
theorem C7_default_deny (l : Listener) (ln downstreamId : String) :
    (createRbacRule ln noPerms).rules.policies = [] ∧
    (createRbacRule ln noPerms).rules.action = RbacAction.allow ∧
    rbacAllows (createRbacRule ln noPerms).rules downstreamId = false ∧
    (networkRbacConfigure noPerms l).filterChains.map (fun fc => fc.filters.head?) =
      l.filterChains.map (fun _ => some (createRbacFilter l.name noPerms)) := by
  refine ⟨rfl, rfl, rfl, ?_⟩
  obtain ⟨nm, chains⟩ := l
  simp only [networkRbacConfigure]
  induction chains with
  | nil => rfl
  | cons c cs ih => simpa using ih

/-- C8: when decoding the PUT body fails, the handler writes a 400 error but
does not return; it validates the zero-valued envelope against the URL and —
when that validation passes and the backend is reachable — still performs the
store `Get` followed by `Create` or `Update` for the same request. -/
theorem C8_read_error_still_processed (rtype : String) (dflt : ResourceSpec)
    (specDec : JsonValue → Option ResourceSpec) (st : StoreState)
    (urlName urlMesh : String) (body : JsonValue)
    (hfail : (unmarshalResourceReqResp specDec (initialReqResp dflt) body).2 = false)
    (hval : validateResourceRequest rtype urlName urlMesh
      (unmarshalResourceReqResp specDec (initialReqResp dflt) body).1 = none)
    (hok : st.broken = false) :
    (∃ rest, (createOrUpdateResource rtype dflt specDec st urlName urlMesh body).responses =
      RespEvent.error 400 "Could not process the resource" :: rest) ∧
    ((createOrUpdateResource rtype dflt specDec st urlName urlMesh body).ops =
        [StoreOp.get namespaceConst urlName, StoreOp.create namespaceConst urlName] ∨
      (createOrUpdateResource rtype dflt specDec st urlName urlMesh body).ops =
        [StoreOp.get namespaceConst urlName, StoreOp.update]) := by
  cases hfind : st.resources.find? (matchesKey rtype namespaceConst urlName) with
  | none =>
      have hget : storeGet st rtype namespaceConst urlName = .error .notFound := by
        simp [storeGet, hok, hfind]
      refine ⟨⟨(createResource rtype dflt st urlName
        (unmarshalResourceReqResp specDec (initialReqResp dflt) body).1.spec).2.1, ?_⟩,
        Or.inl ?_⟩
      · simp [createOrUpdateResource, hfail, hval, hget]
      · simp [createOrUpdateResource, hfail, hval, hget, createResource_ops]
  | some res =>
      have hget : storeGet st rtype namespaceConst urlName = .ok res := by
        simp [storeGet, hok, hfind]
      refine ⟨⟨(updateResource rtype st res
        (unmarshalResourceReqResp specDec (initialReqResp dflt) body).1.spec).2.1, ?_⟩,
        Or.inr ?_⟩
      · simp [createOrUpdateResource, hfail, hval, hget]
      · simp [createOrUpdateResource, hfail, hval, hget, updateResource_ops]

/-- Witness for C8: the body `3` makes the string-map decode fail while the
parameterised spec decoder succeeds, the empty URL fields match the
zero-valued envelope, and the handler goes on to `Get` and `Create`. -/
theorem C8_read_error_still_processed_witness :
    (∃ rest, (createOrUpdateResource "" ⟨"", ""⟩ failDec emptyStore "" ""
        (JsonValue.num 3)).responses =
      RespEvent.error 400 "Could not process the resource" :: rest) ∧
    ((createOrUpdateResource "" ⟨"", ""⟩ failDec emptyStore "" ""
        (JsonValue.num 3)).ops =
        [StoreOp.get namespaceConst "", StoreOp.create namespaceConst ""] ∨
      (createOrUpdateResource "" ⟨"", ""⟩ failDec emptyStore "" ""
        (JsonValue.num 3)).ops =
        [StoreOp.get namespaceConst "", StoreOp.update]) :=
  C8_read_error_still_processed "" ⟨"", ""⟩ failDec emptyStore "" ""
    (JsonValue.num 3) rfl rfl rfl

/-- C9 counterexample: the claim says the decode errors for every body with a
top-level field whose value is not a JSON string; but a JSON null value is
decoded by `json.Unmarshal` into a `map[string]string` as a no-op without
error, so the body `{"name": "x", "spec": null}` is accepted. -/
theorem C9_null_value_accepted :
    isJsonString JsonValue.null = false ∧
    nullDec bodyWithNull = some ⟨"t", "p"⟩ ∧
    (unmarshalResourceReqResp nullDec (initialReqResp ⟨"t", ""⟩) bodyWithNull).2 = true ∧
    (unmarshalResourceReqResp nullDec (initialReqResp ⟨"t", ""⟩) bodyWithNull).1.name = "x" :=
  ⟨rfl, rfl, rfl, rfl⟩

/-- C9 amended: when the spec decoder succeeds on an object body, the decode
succeeds exactly when every top-level value is a JSON string or JSON null;
on success the envelope fields are read from the string map (so absent fields
yield empty strings) and the spec is the decoded one. -/
theorem C9_amended_decode (specDec : JsonValue → Option ResourceSpec)
    (dflt s : ResourceSpec) (fields : List (String × JsonValue))
    (hspec : specDec (.obj fields) = some s) :
    ((unmarshalResourceReqResp specDec (initialReqResp dflt) (.obj fields)).2 = true ↔
      fields.all (fun kv => isStringOrNull kv.2) = true) ∧
    ((unmarshalResourceReqResp specDec (initialReqResp dflt) (.obj fields)).2 = true →
      (unmarshalResourceReqResp specDec (initialReqResp dflt) (.obj fields)).1 =
        ⟨goStringMapGet (.obj fields) "type", goStringMapGet (.obj fields) "name",
          goStringMapGet (.obj fields) "mesh", s⟩) ∧
    ((∀ kv ∈ fields, kv.1 ≠ "name") → goStringMapGet (.obj fields) "name" = "") := by
  have hok : goStringMapDecodeOk (JsonValue.obj fields) =
      fields.all (fun kv => isStringOrNull kv.2) := rfl
  refine ⟨?_, ?_, ?_⟩
  · by_cases hall : fields.all (fun kv => isStringOrNull kv.2) = true
    · simp [unmarshalResourceReqResp, hspec, hok, hall]
    · simp [unmarshalResourceReqResp, hspec, hok, hall]
  · intro htrue
    by_cases hall : fields.all (fun kv => isStringOrNull kv.2) = true
    · simp [unmarshalResourceReqResp, hspec, hok, hall, initialReqResp]
    · exfalso
      simp [unmarshalResourceReqResp, hspec, hok, hall] at htrue
  · intro habs
    unfold goStringMapGet
    exact goStringMapGet_foldl_no_key "name" fields "" habs

/-- Witness for C9 amended at the body `{"mesh": "m"}`: the decode succeeds,
the absent `name` field reads as `""`. -/
theorem C9_amended_decode_witness :
    ((unmarshalResourceReqResp nullDec (initialReqResp ⟨"t", ""⟩)
        (.obj [("mesh", JsonValue.str "m")])).2 = true ↔
      [("mesh", JsonValue.str "m")].all (fun kv => isStringOrNull kv.2) = true) ∧
    ((unmarshalResourceReqResp nullDec (initialReqResp ⟨"t", ""⟩)
        (.obj [("mesh", JsonValue.str "m")])).2 = true →
      (unmarshalResourceReqResp nullDec (initialReqResp ⟨"t", ""⟩)
        (.obj [("mesh", JsonValue.str "m")])).1 =
        ⟨goStringMapGet (.obj [("mesh", JsonValue.str "m")]) "type",
          goStringMapGet (.obj [("mesh", JsonValue.str "m")]) "name",
          goStringMapGet (.obj [("mesh", JsonValue.str "m")]) "mesh", ⟨"t", "p"⟩⟩) ∧
    ((∀ kv ∈ [("mesh", JsonValue.str "m")], kv.1 ≠ "name") →
      goStringMapGet (.obj [("mesh", JsonValue.str "m")]) "name" = "") :=
  C9_amended_decode nullDec ⟨"t", ""⟩ ⟨"t", "p"⟩ [("mesh", JsonValue.str "m")] rfl

/-- C10: `createResource` and `updateResource` discard the `SetSpec` error —
on a mismatching spec shape the resource keeps its previous spec — and
unconditionally run the store `Create` / `Update`; the only responses they
can write are the success header or the store-failure 500, never a
type-mismatch error. -/
theorem C10_setspec_error_discarded (rtype : String) (dflt spec : ResourceSpec)
    (st : StoreState) (name : String) (res : StoredResource)
    (hmismatch : spec.tag ≠ rtype) :
    SetSpec rtype dflt spec = (dflt, false) ∧
    (createResource rtype dflt st name spec).2.2 = [StoreOp.create namespaceConst name] ∧
    ((createResource rtype dflt st name spec).2.1 = [RespEvent.header 201] ∨
      (createResource rtype dflt st name spec).2.1 =
        [RespEvent.error 500 "Could not create a resource"]) ∧
    (updateResource rtype st res spec).2.2 = [StoreOp.update] ∧
    ((updateResource rtype st res spec).2.1 = [RespEvent.header 200] ∨
      (updateResource rtype st res spec).2.1 =
        [RespEvent.error 500 "Could not update a resource"]) :=
  ⟨by simp [SetSpec, hmismatch],
   createResource_ops rtype dflt st name spec,
   createResource_responses rtype dflt st name spec,
   updateResource_ops rtype st res spec,
   updateResource_responses rtype st res spec⟩

/-- Witness for C10 at a spec whose tag `u` mismatches the declared type
`t`. -/
theorem C10_setspec_error_discarded_witness :
    SetSpec "t" ⟨"t", ""⟩ ⟨"u", "x"⟩ = (⟨"t", ""⟩, false) ∧
    (createResource "t" ⟨"t", ""⟩ emptyStore "n" ⟨"u", "x"⟩).2.2 =
      [StoreOp.create namespaceConst "n"] ∧
    ((createResource "t" ⟨"t", ""⟩ emptyStore "n" ⟨"u", "x"⟩).2.1 =
        [RespEvent.header 201] ∨
      (createResource "t" ⟨"t", ""⟩ emptyStore "n" ⟨"u", "x"⟩).2.1 =
        [RespEvent.error 500 "Could not create a resource"]) ∧
    (updateResource "t" emptyStore ⟨"t", "default", "n", ⟨"t", ""⟩, 1⟩ ⟨"u", "x"⟩).2.2 =
      [StoreOp.update] ∧
    ((updateResource "t" emptyStore ⟨"t", "default", "n", ⟨"t", ""⟩, 1⟩ ⟨"u", "x"⟩).2.1 =
        [RespEvent.header 200] ∨
      (updateResource "t" emptyStore ⟨"t", "default", "n", ⟨"t", ""⟩, 1⟩ ⟨"u", "x"⟩).2.1 =
        [RespEvent.error 500 "Could not update a resource"]) :=
  C10_setspec_error_discarded "t" ⟨"t", ""⟩ ⟨"u", "x"⟩ emptyStore "n"
    ⟨"t", "default", "n", ⟨"t", ""⟩, 1⟩ (by decide)

end Kuma
